import Mathlib

/-!
Shallow embedding of `src/lib/src/arena/log.rs` (the `landlord` repository):
the log scanner (`Log::from_str`), the inventory accessors, and the
collection reconciler (`Log::collection`).

Conventions of the embedding:
* `usize`/`u64` become `Nat` (`u64` parsing checks the `2 ^ 64` bound
  explicitly, as `str::parse::<u64>` does).
* Fallible Rust code returning `Result` becomes `Except`; a Rust panic
  (`expect`, `unreachable!`) is a distinct observable outcome from a
  returned `Err` value, so the reconciler's outcome type separates the two.
* The external collaborators that are not part of this repository's `src/`
  snapshot (the card catalog with its three lookup tables, and the
  `DeckBuilder`/`Deck` accumulator) are modelled from the spec, as recorded
  in their doc comments; the catalog's tables are passed as explicit
  read-only functions.
* `serde_json` is an external library: the two payload parsers are
  parameters of the scanner.  The derived deserializer of
  `GetPlayerInventoryPayload` (whose `rename`/`default` attributes are in
  the source, lines 22-36) is embedded over a key-value view of the
  payload object's numeric fields.
* Rust `HashMap` iteration order is arbitrary, so the cards payload is
  modelled as the list of key-count pairs in iteration order.
-/

namespace Landlord

/-- The error type `LogError` of the source (line 44-47): its only variant
is `BadPayload`. -/
inductive LogError where
  | BadPayload
deriving DecidableEq, Repr

/-- Observable abnormal outcomes of the reconciler: either a `LogError`
value returned through the `Result` channel, or a Rust panic raised by
`expect`/`unreachable!`, identified by its message. -/
inductive RtError where
  | logError (e : LogError)
  | rtPanic (msg : String)
deriving DecidableEq, Repr

/-- The payload of a `GetPlayerCardsV3` record (source lines 10-14):
`id: u64` and a map from decimal-string arena identifiers to owned counts,
given as the key-value pairs in the `HashMap` iteration order. -/
structure GetPlayerCardsV3 where
  id : Nat
  payload : List (String × Nat)
deriving DecidableEq, Repr

/-- The inventory payload struct (source lines 22-36). -/
structure GetPlayerInventoryPayload where
  wc_common_count : Nat
  wc_uncommon_count : Nat
  wc_rare_count : Nat
  wc_mythic_count : Nat
  gems : Nat
  gold : Nat
deriving DecidableEq, Repr

/-- The `GetPlayerInventory` record (source lines 16-20). -/
structure GetPlayerInventory where
  id : Nat
  payload : GetPlayerInventoryPayload
deriving DecidableEq, Repr

/-- The `Log` snapshot (source lines 38-42): the latest cards record and
the latest inventory record, if any. -/
structure Log where
  player_cards : Option GetPlayerCardsV3
  player_inventory : Option GetPlayerInventory
deriving DecidableEq, Repr

/-- The derived `serde` deserializer of `GetPlayerInventoryPayload`
(source lines 22-36), embedded over the key-value view of the payload
object's numeric fields: each field reads the key given by its
`serde(rename)` attribute and, per `serde(default)`, defaults to zero when
the key is absent. -/
def deserializeInventoryPayload (obj : List (String × Nat)) : GetPlayerInventoryPayload :=
  { wc_common_count := (obj.lookup "wcCommon").getD 0
    wc_uncommon_count := (obj.lookup "wcUncommon").getD 0
    wc_rare_count := (obj.lookup "wcRare").getD 0
    wc_mythic_count := (obj.lookup "wcMythic").getD 0
    gems := (obj.lookup "gems").getD 0
    gold := (obj.lookup "gold").getD 0 }

/-- Whitespace class of the regex `\s` (ASCII range, which is all the log
format uses). -/
def isWsChar (c : Char) : Bool :=
  c = ' ' || c = '\t' || c = '\n' || c = '\r' || c = '\x0b' || c = '\x0c'

/-- A literal regex pattern with wildcards: `some c` matches exactly `c`,
`none` is the regex `.` (any character except a newline). -/
def wildcardPat (pre post : String) : List (Option Char) :=
  (pre.data.map some) ++ [none] ++ (post.data.map some)

/-- The marker pattern of `GET_PLAYER_CARDS_V3_REGEX` (source lines 71-73):
`<== PlayerInventory.GetPlayerCardsV3` with `.` a wildcard. -/
def cardsPat : List (Option Char) :=
  wildcardPat "<== PlayerInventory" "GetPlayerCardsV3"

/-- The marker pattern of `GET_PLAYER_INVENTORY_REGEX` (source lines
74-76): `<== PlayerInventory.GetPlayerInventory` with `.` a wildcard. -/
def invPat : List (Option Char) :=
  wildcardPat "<== PlayerInventory" "GetPlayerInventory"

/-- Match `pat` against a prefix of `s`; on success return the remaining
characters. -/
def matchPat : List (Option Char) → List Char → Option (List Char)
  | [], s => some s
  | _ :: _, [] => none
  | none :: ps, c :: cs => if c = '\n' then none else matchPat ps cs
  | some p :: ps, c :: cs => if p = c then matchPat ps cs else none

/-- The `\s+(?P<data>.*)` tail of both regexes: require at least one
whitespace character, consume the maximal whitespace run (`\s+` is
greedy), and capture the rest as `data`. -/
def captureData : List Char → Option (List Char)
  | [] => none
  | c :: cs => if isWsChar c then some (cs.dropWhile isWsChar) else none

/-- Try to match `marker  \s+(?P<data>.*)` starting exactly here. -/
def tryCaptureAt (pat : List (Option Char)) (s : List Char) : Option (List Char) :=
  (matchPat pat s).bind captureData

/-- The whole regex `^.*MARKER\s+(?P<data>.*)`: the leading greedy `.*`
makes the match use the rightmost position at which the rest of the regex
matches, so later positions are preferred. -/
def findLastCapture (pat : List (Option Char)) : List Char → Option (List Char)
  | [] => tryCaptureAt pat []
  | c :: cs =>
    match findLastCapture pat cs with
    | some r => some r
    | none => tryCaptureAt pat (c :: cs)

/-- The `data` capture of `GET_PLAYER_CARDS_V3_REGEX` on a line, if the
regex matches (source line 83). -/
def cardsCapture (line : String) : Option String :=
  (findLastCapture cardsPat line.data).map String.mk

/-- The `data` capture of `GET_PLAYER_INVENTORY_REGEX` on a line, if the
regex matches (source line 88). -/
def invCapture (line : String) : Option String :=
  (findLastCapture invPat line.data).map String.mk

/-- Drop a trailing carriage return, as `BufRead::lines` does on lines that
ended in `\r\n`. -/
def stripCR (p : String) : String :=
  if p.endsWith "\r" then p.dropRight 1 else p

/-- Helper of `rustLines` over the pieces produced by splitting at `\n`:
every piece but the last was followed by a newline, so its trailing `\r`
(if any) is stripped; a final empty piece is not a line. -/
def rustLinesAux : List String → List String
  | [] => []
  | [p] => if p = "" then [] else [p]
  | p :: ps => stripCR p :: rustLinesAux ps

/-- The line iterator of the source (line 78-79): `BufRead::lines` over a
cursor on the log text splits at `\n`, strips the `\n`, and strips a `\r`
that preceded a `\n`. -/
def rustLines (s : String) : List String :=
  rustLinesAux (s.splitOn "\n")

/-- The two grow-only vectors of the scan loop (source lines 80-81). -/
structure ScanState where
  player_cards : List GetPlayerCardsV3
  player_inventory : List GetPlayerInventory
deriving DecidableEq, Repr

/-- One iteration of the scan loop (source lines 82-94): try the cards
regex first, else the inventory regex; on a match, try to deserialize the
`data` capture and push the record on success; a failed parse or an
unmatched line leaves the state unchanged. -/
def scanLine (pc : String → Option GetPlayerCardsV3)
    (pi : String → Option GetPlayerInventory)
    (st : ScanState) (line : String) : ScanState :=
  match cardsCapture line with
  | some d =>
    match pc d with
    | some v => { st with player_cards := st.player_cards ++ [v] }
    | none => st
  | none =>
    match invCapture line with
    | some d =>
      match pi d with
      | some v => { st with player_inventory := st.player_inventory ++ [v] }
      | none => st
    | none => st

/-- The state after scanning every line of the log. -/
def scanState (pc : String → Option GetPlayerCardsV3)
    (pi : String → Option GetPlayerInventory) (log : String) : ScanState :=
  (rustLines log).foldl (scanLine pc pi) ⟨[], []⟩

/-- `Log::from_str` (source lines 68-99), parameterized by the two
`serde_json` payload parsers: scan every line and keep the last pushed
record of each kind. -/
def Log.from_str (pc : String → Option GetPlayerCardsV3)
    (pi : String → Option GetPlayerInventory) (log : String) :
    Except LogError Log :=
  .ok ⟨(scanState pc pi log).player_cards.getLast?,
       (scanState pc pi log).player_inventory.getLast?⟩

/-- `Log::wc_common_count` (source lines 101-106). -/
def Log.wc_common_count (l : Log) : Nat :=
  (l.player_inventory.map (fun o => o.payload.wc_common_count)).getD 0

/-- `Log::wc_uncommon_count` (source lines 108-113). -/
def Log.wc_uncommon_count (l : Log) : Nat :=
  (l.player_inventory.map (fun o => o.payload.wc_uncommon_count)).getD 0

/-- `Log::wc_rare_count` (source lines 115-120). -/
def Log.wc_rare_count (l : Log) : Nat :=
  (l.player_inventory.map (fun o => o.payload.wc_rare_count)).getD 0

/-- `Log::wc_mythic_count` (source lines 122-127). -/
def Log.wc_mythic_count (l : Log) : Nat :=
  (l.player_inventory.map (fun o => o.payload.wc_mythic_count)).getD 0

/-- `Log::gems` (source lines 129-131). -/
def Log.gems (l : Log) : Nat :=
  (l.player_inventory.map (fun o => o.payload.gems)).getD 0

/-- `Log::gold` (source lines 133-135). -/
def Log.gold (l : Log) : Nat :=
  (l.player_inventory.map (fun o => o.payload.gold)).getD 0

/-- Modelled from the spec: `CatalogEntry`, the canonical card record of
the external catalog (`card.rs` is not in this `src/` snapshot) — a stable
catalog identifier, a display name, and the associated numeric arena
identifier, `0` if none is assigned.  Only these three fields are read by
the reconciler. -/
structure Card where
  id : String
  name : String
  arena_id : Nat
deriving DecidableEq, Repr

/-- Insert a (card, count) pair into an association list, merging by
summation when the card is already present. -/
def addCount : List (Card × Nat) → Card → Nat → List (Card × Nat)
  | [], c, n => [(c, n)]
  | (c', n') :: rest, c, n =>
    if c' = c then (c', n' + n) :: rest else (c', n') :: addCount rest c n

/-- Modelled from the spec: `ReconciledCollection` (the `Deck` built by the
external `DeckBuilder` collaborator, `deck.rs` is not in this `src/`
snapshot) — accumulated (canonical card, count) pairs, duplicates merged by
summation. -/
structure Deck where
  cards : List (Card × Nat)
deriving DecidableEq, Repr

/-- Modelled from the spec: the external `DeckBuilder` accumulator. -/
structure DeckBuilder where
  cards : List (Card × Nat)
deriving DecidableEq, Repr

/-- Modelled from the spec: `DeckBuilder::new`, the empty accumulator. -/
def DeckBuilder.new : DeckBuilder := ⟨[]⟩

/-- Modelled from the spec: `DeckBuilder::insert_count` merges duplicates
by summation. -/
def DeckBuilder.insert_count (b : DeckBuilder) (c : Card) (n : Nat) : DeckBuilder :=
  ⟨addCount b.cards c n⟩

/-- Modelled from the spec: `DeckBuilder::build` hands over the
accumulated pairs. -/
def DeckBuilder.build (b : DeckBuilder) : Deck := ⟨b.cards⟩

/-- Total count accumulated for a given card in an association list. -/
def countList (l : List (Card × Nat)) (c : Card) : Nat :=
  (l.map (fun p => if p.1 = c then p.2 else 0)).sum

/-- Accumulated count of a card in a built deck. -/
def Deck.count (d : Deck) (c : Card) : Nat := countList d.cards c

/-- Accumulated count of a card in a builder. -/
def DeckBuilder.count (b : DeckBuilder) (c : Card) : Nat := countList b.cards c

/-- The three read-only catalog lookup tables consumed by `Log::collection`
(source lines 139-141 and the `ARENA_2_SCRYFALL` map): id to card, name to
candidate list, arena id to (catalog id, expected name).  They belong to
the external catalog and are passed as explicit functions. -/
structure Catalog where
  idLookup : String → Option Card
  nameLookup : String → Option (List Card)
  arena2scryfall : Nat → Option (String × String)

/-- `str::parse::<u64>` (used at source line 147): an optional leading
`+`, then at least one ASCII digit, value below `2 ^ 64`; anything else is
a parse error. -/
def parseU64 (s : String) : Option Nat :=
  let cs :=
    match s.data with
    | '+' :: rest => rest
    | cs => cs
  if cs.isEmpty then none
  else if cs.all (fun c => c.isDigit) then
    let n := cs.foldl (fun acc c => acc * 10 + (c.toNat - 48)) 0
    if n < 2 ^ 64 then some n else none
  else none

/-- The card-selection chunk of the loop body (source lines 152-167):
primary lookup by catalog id (`expect "id lookup must work"` on a miss),
then, when the found card's name differs from the expected name, the
fallback name lookup taking the first candidate (`expect` panics on a
missing name entry and on an empty candidate list). -/
def selectCard (cat : Catalog) (id nm : String) : Except RtError Card :=
  match cat.idLookup id with
  | none => .error (.rtPanic "id lookup must work")
  | some card =>
    if card.name = nm then .ok card
    else
      match cat.nameLookup nm with
      | none => .error (.rtPanic "name lookup must work")
      | some [] => .error (.rtPanic "nothing")
      | some (c :: _) => .ok c

/-- The decision taken by one iteration of the reconciliation loop (source
lines 146-184) for one (key, count) pair, independent of the accumulated
builder: `.ok none` skips the pair, `.ok (some (card, n))` hands the pair
to the builder, `.error` is a panic. -/
def entryStep (cat : Catalog) (e : String × Nat) :
    Except RtError (Option (Card × Nat)) :=
  match parseU64 e.1 with
  | none => .error (.rtPanic "parse to u64 works")
  | some arena_id =>
    match cat.arena2scryfall arena_id with
    | none => .ok none
    | some (id, nm) =>
      if id = "" then .ok none
      else
        match selectCard cat id nm with
        | .error er => .error er
        | .ok card =>
          if card.arena_id ≠ 0 ∧ card.arena_id ≠ arena_id then
            .error (.rtPanic "unreachable code")
          else .ok (some (card, e.2))

/-- One iteration of the reconciliation loop applied to the builder. -/
def processEntry (cat : Catalog) (b : DeckBuilder) (e : String × Nat) :
    Except RtError DeckBuilder :=
  match entryStep cat e with
  | .error er => .error er
  | .ok none => .ok b
  | .ok (some (card, n)) => .ok (b.insert_count card n)

/-- The reconciliation loop over the payload pairs (source lines 146-185):
stops at the first panic. -/
def runEntries (cat : Catalog) (b : DeckBuilder) :
    List (String × Nat) → Except RtError DeckBuilder
  | [] => .ok b
  | e :: rest =>
    match processEntry cat b e with
    | .error er => .error er
    | .ok b' => runEntries cat b' rest

/-- `Log::collection` (source lines 137-188): fold the loop over the cards
payload (if a cards record was captured) and build the deck. -/
def Log.collection (cat : Catalog) (l : Log) : Except RtError Deck :=
  match l.player_cards with
  | none => .ok DeckBuilder.new.build
  | some pc =>
    match runEntries cat DeckBuilder.new pc.payload with
    | .error er => .error er
    | .ok b => .ok b.build

/-- The pair handed to the builder by an entry, `none` when the entry is
skipped or panics. -/
def entryVal (cat : Catalog) (e : String × Nat) : Option (Card × Nat) :=
  match entryStep cat e with
  | .ok a => a
  | .error _ => none

/-- Pure effect of one entry on the builder, meaningful when the entry
does not panic. -/
def applyEntry (cat : Catalog) (b : DeckBuilder) (e : String × Nat) : DeckBuilder :=
  match entryVal cat e with
  | none => b
  | some (c, n) => b.insert_count c n

/-- Count contributed by one entry to a given card. -/
def entryContrib (cat : Catalog) (c : Card) (e : String × Nat) : Nat :=
  match entryVal cat e with
  | none => 0
  | some (c', n) => if c' = c then n else 0

/-- Every entry of the list is processed without a panic. -/
def entriesOk (cat : Catalog) (l : List (String × Nat)) : Prop :=
  ∀ e ∈ l, ∃ a, entryStep cat e = .ok a

/-- A catalog-integrity violation on one payload entry, as enumerated by
the spec: primary id lookup miss after a successful arena-id mapping; a
name mismatch whose name-fallback lookup yields no entries; a selected
card already carrying a different nonzero arena identifier. -/
def entryViolation (cat : Catalog) (e : String × Nat) : Prop :=
  ∃ a id nm, parseU64 e.1 = some a ∧ cat.arena2scryfall a = some (id, nm) ∧ id ≠ "" ∧
    (cat.idLookup id = none ∨
     (∃ c, cat.idLookup id = some c ∧ c.name ≠ nm ∧
        (cat.nameLookup nm = none ∨ cat.nameLookup nm = some [])) ∨
     (∃ c, selectCard cat id nm = .ok c ∧ c.arena_id ≠ 0 ∧ c.arena_id ≠ a))

/-- The record retained in `player_cards` by a scan of the given lines:
the last cards-marker line whose capture deserializes. -/
def lastCardsRecord (pc : String → Option GetPlayerCardsV3)
    (lines : List String) : Option GetPlayerCardsV3 :=
  (lines.filterMap (fun line => (cardsCapture line).bind pc)).getLast?

/-- The record retained in `player_inventory` by a scan of the given
lines: the last line recognized as an inventory record (the cards regex is
tried first, so a line it matches is never an inventory line) whose
capture deserializes. -/
def lastInventoryRecord (pi : String → Option GetPlayerInventory)
    (lines : List String) : Option GetPlayerInventory :=
  (lines.filterMap (fun line =>
    match cardsCapture line with
    | some _ => none
    | none => (invCapture line).bind pi)).getLast?

/-- Sample catalog card used by concrete witnesses. -/
def cardAlpha : Card := { id := "c1", name := "Alpha", arena_id := 1 }

/-- Sample catalog card used by concrete witnesses. -/
def cardBeta : Card := { id := "c2", name := "Beta", arena_id := 2 }

/-- A small consistent catalog used by concrete witnesses. -/
def sampleCatalog : Catalog where
  idLookup := fun i =>
    if i = "c1" then some cardAlpha else if i = "c2" then some cardBeta else none
  nameLookup := fun nm =>
    if nm = "Alpha" then some [cardAlpha]
    else if nm = "Beta" then some [cardBeta] else none
  arena2scryfall := fun a =>
    if a = 1 then some ("c1", "Alpha") else if a = 2 then some ("c2", "Beta") else none

/-- An inconsistent catalog: arena id `5` maps to catalog id `"cX"`, but
the id lookup has no entry for it. -/
def brokenCatalog : Catalog where
  idLookup := fun _ => none
  nameLookup := fun _ => none
  arena2scryfall := fun a => if a = 5 then some ("cX", "Gamma") else none

/-- The cards vector built by the scan fold is the initial one extended by
the successfully parsed captures of the cards regex, in line order. -/
theorem foldl_scan_cards (pc : String → Option GetPlayerCardsV3)
    (pi : String → Option GetPlayerInventory) :
    ∀ (lines : List String) (st : ScanState),
      ((lines.foldl (scanLine pc pi) st)).player_cards =
        st.player_cards ++ lines.filterMap (fun line => (cardsCapture line).bind pc) := by
  intro lines
  induction lines with
  | nil => intro st; simp
  | cons line rest ih =>
    intro st
    rw [List.foldl_cons, ih, List.filterMap_cons]
    cases hc : cardsCapture line with
    | none =>
      cases hi : invCapture line with
      | none => simp [scanLine, hc, hi]
      | some d => cases hp : pi d <;> simp [scanLine, hc, hi, hp]
    | some d =>
      cases hp : pc d with
      | none => simp [scanLine, hc, hp]
      | some v => simp [scanLine, hc, hp]

/-- The inventory vector built by the scan fold is the initial one
extended by the successfully parsed captures of the inventory regex on
lines the cards regex did not claim, in line order. -/
theorem foldl_scan_inv (pc : String → Option GetPlayerCardsV3)
    (pi : String → Option GetPlayerInventory) :
    ∀ (lines : List String) (st : ScanState),
      ((lines.foldl (scanLine pc pi) st)).player_inventory =
        st.player_inventory ++ lines.filterMap (fun line =>
          match cardsCapture line with
          | some _ => none
          | none => (invCapture line).bind pi) := by
  intro lines
  induction lines with
  | nil => intro st; simp
  | cons line rest ih =>
    intro st
    rw [List.foldl_cons, ih, List.filterMap_cons]
    cases hc : cardsCapture line with
    | none =>
      cases hi : invCapture line with
      | none => simp [scanLine, hc, hi]
      | some d => cases hp : pi d <;> simp [scanLine, hc, hi, hp]
    | some d =>
      cases hp : pc d <;> simp [scanLine, hc, hp]

/-- Claim C2: for every log text and payload parsers, `from_str` retains in
the snapshot exactly the payload of the last line of each marker type
whose trailing capture deserializes successfully (`None` when no such line
exists); earlier successfully parsed matches of the same type are
discarded. -/
theorem c2_last_match_wins (pc : String → Option GetPlayerCardsV3)
    (pi : String → Option GetPlayerInventory) (log : String) :
    Log.from_str pc pi log =
      .ok ⟨lastCardsRecord pc (rustLines log), lastInventoryRecord pi (rustLines log)⟩ := by
  unfold Log.from_str lastCardsRecord lastInventoryRecord scanState
  rw [foldl_scan_cards pc pi (rustLines log) ⟨[], []⟩,
    foldl_scan_inv pc pi (rustLines log) ⟨[], []⟩]
  simp

/-- Claim C4: `from_str` returns `Ok` on every input, and a matched line
whose trailing capture fails to deserialize is discarded, leaving the scan
state unchanged, so scanning continues with subsequent lines. -/
theorem c4_scan_never_fails (pc : String → Option GetPlayerCardsV3)
    (pi : String → Option GetPlayerInventory) :
    (∀ log : String, ∃ s, Log.from_str pc pi log = .ok s) ∧
    (∀ (st : ScanState) (line : String),
      ((∃ d, cardsCapture line = some d ∧ pc d = none) ∨
       (cardsCapture line = none ∧ ∃ d, invCapture line = some d ∧ pi d = none)) →
      scanLine pc pi st line = st) := by
  constructor
  · intro log
    exact ⟨_, rfl⟩
  · intro st line h
    rcases h with ⟨d, hd, hpc⟩ | ⟨hc, d, hd, hpi⟩
    · simp [scanLine, hd, hpc]
    · simp [scanLine, hc, hd, hpi]

/-- Witness for C4 at a concrete malformed cards line: the capture matches
but the payload parser rejects it, and the line leaves the state
unchanged. -/
theorem c4_witness :
    ((∃ d, cardsCapture "[UnityCrossThreadLogger]<== PlayerInventory.GetPlayerCardsV3 notjson"
        = some d ∧ (fun _ => (none : Option GetPlayerCardsV3)) d = none) ∨
     (cardsCapture "[UnityCrossThreadLogger]<== PlayerInventory.GetPlayerCardsV3 notjson"
        = none ∧
      ∃ d, invCapture "[UnityCrossThreadLogger]<== PlayerInventory.GetPlayerCardsV3 notjson"
        = some d ∧ (fun _ => (none : Option GetPlayerInventory)) d = none)) ∧
    scanLine (fun _ => none) (fun _ => none) ⟨[], []⟩
      "[UnityCrossThreadLogger]<== PlayerInventory.GetPlayerCardsV3 notjson" = ⟨[], []⟩ :=
  ⟨Or.inl ⟨"notjson", by decide, rfl⟩,
   (c4_scan_never_fails (fun _ => none) (fun _ => none)).2 ⟨[], []⟩
     "[UnityCrossThreadLogger]<== PlayerInventory.GetPlayerCardsV3 notjson"
     (Or.inl ⟨"notjson", by decide, rfl⟩)⟩

/-- Claim C7: when no inventory record was captured, each of the six
accessors returns zero. -/
theorem c7_absent_inventory_zero (l : Log) (h : l.player_inventory = none) :
    l.wc_common_count = 0 ∧ l.wc_uncommon_count = 0 ∧ l.wc_rare_count = 0 ∧
      l.wc_mythic_count = 0 ∧ l.gems = 0 ∧ l.gold = 0 := by
  unfold Log.wc_common_count Log.wc_uncommon_count Log.wc_rare_count
    Log.wc_mythic_count Log.gems Log.gold
  rw [h]
  exact ⟨rfl, rfl, rfl, rfl, rfl, rfl⟩

/-- Witness for C7 at the empty snapshot. -/
theorem c7_witness :
    (Log.mk none none).player_inventory = none ∧
    ((Log.mk none none).wc_common_count = 0 ∧ (Log.mk none none).wc_uncommon_count = 0 ∧
      (Log.mk none none).wc_rare_count = 0 ∧ (Log.mk none none).wc_mythic_count = 0 ∧
      (Log.mk none none).gems = 0 ∧ (Log.mk none none).gold = 0) :=
  ⟨rfl, c7_absent_inventory_zero (Log.mk none none) rfl⟩

/-- Claim C8: each named wildcard/currency field absent from an inventory
payload object deserializes to zero, and the payload object with only
`wcRare = 3` yields `wc_rare_count = 3`, `gems = 0` and `gold = 0` through
the accessors. -/
theorem c8_default_fields :
    (∀ obj : List (String × Nat),
      (obj.lookup "wcCommon" = none → (deserializeInventoryPayload obj).wc_common_count = 0) ∧
      (obj.lookup "wcUncommon" = none → (deserializeInventoryPayload obj).wc_uncommon_count = 0) ∧
      (obj.lookup "wcRare" = none → (deserializeInventoryPayload obj).wc_rare_count = 0) ∧
      (obj.lookup "wcMythic" = none → (deserializeInventoryPayload obj).wc_mythic_count = 0) ∧
      (obj.lookup "gems" = none → (deserializeInventoryPayload obj).gems = 0) ∧
      (obj.lookup "gold" = none → (deserializeInventoryPayload obj).gold = 0)) ∧
    (∀ (pcards : Option GetPlayerCardsV3) (i : Nat),
      (Log.mk pcards (some ⟨i, deserializeInventoryPayload [("wcRare", 3)]⟩)).wc_rare_count = 3 ∧
      (Log.mk pcards (some ⟨i, deserializeInventoryPayload [("wcRare", 3)]⟩)).gems = 0 ∧
      (Log.mk pcards (some ⟨i, deserializeInventoryPayload [("wcRare", 3)]⟩)).gold = 0) := by
  constructor
  · intro obj
    refine ⟨fun h => ?_, fun h => ?_, fun h => ?_, fun h => ?_, fun h => ?_, fun h => ?_⟩ <;>
      simp [deserializeInventoryPayload, h]
  · intro pcards i
    refine ⟨?_, ?_, ?_⟩ <;> rfl

/-- Witness for C8 at the empty payload object. -/
theorem c8_witness :
    ([] : List (String × Nat)).lookup "wcCommon" = none ∧
    (deserializeInventoryPayload []).wc_common_count = 0 :=
  ⟨rfl, (c8_default_fields.1 []).1 rfl⟩

/-- Claim C10: when no cards record was captured, `collection` returns the
empty collection for every catalog, querying nothing and accumulating
nothing. -/
theorem c10_no_cards (cat : Catalog) (inv : Option GetPlayerInventory) :
    Log.collection cat ⟨none, inv⟩ = .ok (Deck.mk []) := rfl

/-- Value of `selectCard` when the primary id lookup misses. -/
theorem selectCard_eq_idMiss (cat : Catalog) (id nm : String)
    (hid : cat.idLookup id = none) :
    selectCard cat id nm = .error (.rtPanic "id lookup must work") := by
  simp only [selectCard, hid]

/-- Value of `selectCard` when the primary lookup hits a card whose name
is the expected one. -/
theorem selectCard_eq_nameMatch (cat : Catalog) (id nm : String) (card : Card)
    (hid : cat.idLookup id = some card) (hnm : card.name = nm) :
    selectCard cat id nm = .ok card := by
  simp only [selectCard, hid, if_pos hnm]

/-- Value of `selectCard` on a name mismatch whose name lookup misses. -/
theorem selectCard_eq_nameMiss (cat : Catalog) (id nm : String) (card : Card)
    (hid : cat.idLookup id = some card) (hnm : ¬card.name = nm)
    (hnl : cat.nameLookup nm = none) :
    selectCard cat id nm = .error (.rtPanic "name lookup must work") := by
  simp only [selectCard, hid, if_neg hnm, hnl]

/-- Value of `selectCard` on a name mismatch whose name lookup yields an
empty candidate list. -/
theorem selectCard_eq_nameEmpty (cat : Catalog) (id nm : String) (card : Card)
    (hid : cat.idLookup id = some card) (hnm : ¬card.name = nm)
    (hnl : cat.nameLookup nm = some []) :
    selectCard cat id nm = .error (.rtPanic "nothing") := by
  simp only [selectCard, hid, if_neg hnm, hnl]

/-- Value of `selectCard` on a name mismatch with candidates: the first
candidate, in the name index's own order. -/
theorem selectCard_eq_nameFirst (cat : Catalog) (id nm : String) (card c₀ : Card)
    (cs : List Card) (hid : cat.idLookup id = some card) (hnm : ¬card.name = nm)
    (hnl : cat.nameLookup nm = some (c₀ :: cs)) :
    selectCard cat id nm = .ok c₀ := by
  simp only [selectCard, hid, if_neg hnm, hnl]

/-- Every abnormal outcome of `selectCard` is one of its three `expect`
panics; in particular no `LogError` value is ever produced. -/
theorem selectCard_error (cat : Catalog) (id nm : String) (er : RtError)
    (h : selectCard cat id nm = .error er) :
    er = .rtPanic "id lookup must work" ∨ er = .rtPanic "name lookup must work" ∨
      er = .rtPanic "nothing" := by
  cases hid : cat.idLookup id with
  | none =>
    rw [selectCard_eq_idMiss cat id nm hid] at h
    exact Or.inl (Except.error.inj h).symm
  | some card =>
    by_cases hnm : card.name = nm
    · rw [selectCard_eq_nameMatch cat id nm card hid hnm] at h
      exact Except.noConfusion h
    · cases hnl : cat.nameLookup nm with
      | none =>
        rw [selectCard_eq_nameMiss cat id nm card hid hnm hnl] at h
        exact Or.inr (Or.inl (Except.error.inj h).symm)
      | some cs =>
        cases cs with
        | nil =>
          rw [selectCard_eq_nameEmpty cat id nm card hid hnm hnl] at h
          exact Or.inr (Or.inr (Except.error.inj h).symm)
        | cons c rest =>
          rw [selectCard_eq_nameFirst cat id nm card c rest hid hnm hnl] at h
          exact Except.noConfusion h

/-- Value of `entryStep` when the key does not parse as a `u64`. -/
theorem entryStep_eq_parseFail (cat : Catalog) (e : String × Nat)
    (hq : parseU64 e.1 = none) :
    entryStep cat e = .error (.rtPanic "parse to u64 works") := by
  simp only [entryStep, hq]

/-- Value of `entryStep` when the arena id is absent from the arena-id
mapping. -/
theorem entryStep_eq_unmapped (cat : Catalog) (e : String × Nat) (a : Nat)
    (hq : parseU64 e.1 = some a) (hm : cat.arena2scryfall a = none) :
    entryStep cat e = .ok none := by
  simp only [entryStep, hq, hm]

/-- Value of `entryStep` when the arena id maps to an empty catalog id. -/
theorem entryStep_eq_emptyId (cat : Catalog) (e : String × Nat) (a : Nat) (nm : String)
    (hq : parseU64 e.1 = some a) (hm : cat.arena2scryfall a = some ("", nm)) :
    entryStep cat e = .ok none := by
  simp [entryStep, hq, hm]

/-- Value of `entryStep` on a mapped, nonempty catalog id, in terms of the
card selection and the sanity check. -/
theorem entryStep_eq_sel (cat : Catalog) (e : String × Nat) (a : Nat) (id nm : String)
    (hq : parseU64 e.1 = some a) (hm : cat.arena2scryfall a = some (id, nm))
    (hid : ¬id = "") :
    entryStep cat e =
      match selectCard cat id nm with
      | .error er => .error er
      | .ok card =>
        if card.arena_id ≠ 0 ∧ card.arena_id ≠ a then
          .error (.rtPanic "unreachable code")
        else .ok (some (card, e.2)) := by
  simp only [entryStep, hq, hm, if_neg hid]

/-- Value of `entryStep` when the selection panics. -/
theorem entryStep_eq_selError (cat : Catalog) (e : String × Nat) (a : Nat)
    (id nm : String) (er : RtError)
    (hq : parseU64 e.1 = some a) (hm : cat.arena2scryfall a = some (id, nm))
    (hid : ¬id = "") (hsel : selectCard cat id nm = .error er) :
    entryStep cat e = .error er := by
  rw [entryStep_eq_sel cat e a id nm hq hm hid, hsel]

/-- Value of `entryStep` when the selection succeeds and the sanity check
trips. -/
theorem entryStep_eq_sanity (cat : Catalog) (e : String × Nat) (a : Nat)
    (id nm : String) (card : Card)
    (hq : parseU64 e.1 = some a) (hm : cat.arena2scryfall a = some (id, nm))
    (hid : ¬id = "") (hsel : selectCard cat id nm = .ok card)
    (hsan : card.arena_id ≠ 0 ∧ card.arena_id ≠ a) :
    entryStep cat e = .error (.rtPanic "unreachable code") := by
  rw [entryStep_eq_sel cat e a id nm hq hm hid, hsel]
  simp only [if_pos hsan]

/-- Value of `entryStep` when the selection succeeds and the sanity check
passes: the pair is handed to the builder. -/
theorem entryStep_eq_insert (cat : Catalog) (e : String × Nat) (a : Nat)
    (id nm : String) (card : Card)
    (hq : parseU64 e.1 = some a) (hm : cat.arena2scryfall a = some (id, nm))
    (hid : ¬id = "") (hsel : selectCard cat id nm = .ok card)
    (hsan : ¬(card.arena_id ≠ 0 ∧ card.arena_id ≠ a)) :
    entryStep cat e = .ok (some (card, e.2)) := by
  rw [entryStep_eq_sel cat e a id nm hq hm hid, hsel]
  simp only [if_neg hsan]

/-- Every abnormal outcome of one loop iteration is a panic; no iteration
produces a `LogError` value. -/
theorem entryStep_error_panic (cat : Catalog) (e : String × Nat) (er : RtError)
    (h : entryStep cat e = .error er) : ∃ msg, er = .rtPanic msg := by
  cases hq : parseU64 e.1 with
  | none =>
    rw [entryStep_eq_parseFail cat e hq] at h
    exact ⟨"parse to u64 works", (Except.error.inj h).symm⟩
  | some a =>
    cases hm : cat.arena2scryfall a with
    | none =>
      rw [entryStep_eq_unmapped cat e a hq hm] at h
      exact Except.noConfusion h
    | some idnm =>
      obtain ⟨id, nm⟩ := idnm
      by_cases hid : id = ""
      · rw [hid] at hm
        rw [entryStep_eq_emptyId cat e a nm hq hm] at h
        exact Except.noConfusion h
      · cases hsel : selectCard cat id nm with
        | error er₂ =>
          rw [entryStep_eq_selError cat e a id nm er₂ hq hm hid hsel] at h
          rcases selectCard_error cat id nm er₂ hsel with h1 | h1 | h1 <;>
            exact ⟨_, by rw [← Except.error.inj h, h1]⟩
        | ok card =>
          by_cases hsan : card.arena_id ≠ 0 ∧ card.arena_id ≠ a
          · rw [entryStep_eq_sanity cat e a id nm card hq hm hid hsel hsan] at h
            exact ⟨"unreachable code", (Except.error.inj h).symm⟩
          · rw [entryStep_eq_insert cat e a id nm card hq hm hid hsel hsan] at h
            exact Except.noConfusion h

/-- When the entry key parses as a `u64`, an abnormal outcome of the loop
iteration is never the key-parse panic. -/
theorem entryStep_error_parse (cat : Catalog) (e : String × Nat) (er : RtError)
    (h : entryStep cat e = .error er) (hp : (parseU64 e.1).isSome = true) :
    er ≠ .rtPanic "parse to u64 works" := by
  cases hq : parseU64 e.1 with
  | none => rw [hq] at hp; exact absurd hp (by simp)
  | some a =>
    cases hm : cat.arena2scryfall a with
    | none =>
      rw [entryStep_eq_unmapped cat e a hq hm] at h
      exact Except.noConfusion h
    | some idnm =>
      obtain ⟨id, nm⟩ := idnm
      by_cases hid : id = ""
      · rw [hid] at hm
        rw [entryStep_eq_emptyId cat e a nm hq hm] at h
        exact Except.noConfusion h
      · cases hsel : selectCard cat id nm with
        | error er₂ =>
          rw [entryStep_eq_selError cat e a id nm er₂ hq hm hid hsel] at h
          rw [← Except.error.inj h]
          rcases selectCard_error cat id nm er₂ hsel with h1 | h1 | h1 <;>
            (rw [h1]; decide)
        | ok card =>
          by_cases hsan : card.arena_id ≠ 0 ∧ card.arena_id ≠ a
          · rw [entryStep_eq_sanity cat e a id nm card hq hm hid hsel hsan] at h
            rw [← Except.error.inj h]
            decide
          · rw [entryStep_eq_insert cat e a id nm card hq hm hid hsel hsan] at h
            exact Except.noConfusion h

/-- A loop iteration whose decision succeeds applies the decided effect to
the builder. -/
theorem processEntry_eq_ok (cat : Catalog) (b : DeckBuilder) (e : String × Nat)
    (a : Option (Card × Nat)) (ha : entryStep cat e = .ok a) :
    processEntry cat b e = .ok (applyEntry cat b e) := by
  unfold processEntry applyEntry entryVal
  rw [ha]
  cases a with
  | none => rfl
  | some p =>
    obtain ⟨c, n⟩ := p
    rfl

/-- A loop iteration whose decision panics propagates the panic whatever
the builder holds. -/
theorem processEntry_eq_error (cat : Catalog) (b : DeckBuilder) (e : String × Nat)
    (er : RtError) (ha : entryStep cat e = .error er) :
    processEntry cat b e = .error er := by
  unfold processEntry
  rw [ha]

/-- When every entry's decision succeeds, the loop is the pure fold of the
decided effects. -/
theorem runEntries_ok (cat : Catalog) :
    ∀ (l : List (String × Nat)) (b : DeckBuilder), entriesOk cat l →
      runEntries cat b l = .ok (l.foldl (applyEntry cat) b) := by
  intro l
  induction l with
  | nil => intro b _; rfl
  | cons e rest ih =>
    intro b h
    obtain ⟨a, ha⟩ := h e (by simp)
    unfold runEntries
    rw [processEntry_eq_ok cat b e a ha]
    rw [List.foldl_cons]
    exact ih (applyEntry cat b e) (fun e' he' => h e' (by simp [he']))

/-- An abnormal outcome of the loop comes from the decision of one of the
entries. -/
theorem runEntries_error_mem (cat : Catalog) :
    ∀ (l : List (String × Nat)) (b : DeckBuilder) (er : RtError),
      runEntries cat b l = .error er → ∃ e ∈ l, entryStep cat e = .error er := by
  intro l
  induction l with
  | nil =>
    intro b er h
    exact Except.noConfusion h
  | cons e rest ih =>
    intro b er h
    unfold runEntries at h
    cases ha : entryStep cat e with
    | error er₂ =>
      rw [processEntry_eq_error cat b e er₂ ha] at h
      simp only [Except.error.injEq] at h
      exact ⟨e, by simp, by rw [ha, h]⟩
    | ok a =>
      rw [processEntry_eq_ok cat b e a ha] at h
      obtain ⟨e', he', hs⟩ := ih (applyEntry cat b e) er h
      exact ⟨e', by simp [he'], hs⟩

/-- If the decision of some entry of the list panics, the whole loop ends
abnormally. -/
theorem runEntries_error_of_mem (cat : Catalog) :
    ∀ (l : List (String × Nat)) (b : DeckBuilder) (e : String × Nat) (er : RtError),
      e ∈ l → entryStep cat e = .error er →
      ∃ er', runEntries cat b l = .error er' := by
  intro l
  induction l with
  | nil =>
    intro b e er he _
    exact absurd he (by simp)
  | cons f rest ih =>
    intro b e er he hs
    unfold runEntries
    cases ha : entryStep cat f with
    | error er₂ => exact ⟨er₂, by rw [processEntry_eq_error cat b f er₂ ha]⟩
    | ok a =>
      rw [processEntry_eq_ok cat b f a ha]
      rcases List.mem_cons.mp he with hef | he'
      · rw [hef] at hs
        rw [hs] at ha
        exact Except.noConfusion ha
      · exact ih (applyEntry cat b f) e er he' hs

/-- An entry whose decision is a skip can be removed from anywhere in the
list without changing the loop's outcome. -/
theorem runEntries_skip (cat : Catalog) (e : String × Nat)
    (he : entryStep cat e = .ok none) :
    ∀ (pre : List (String × Nat)) (b : DeckBuilder) (post : List (String × Nat)),
      runEntries cat b (pre ++ e :: post) = runEntries cat b (pre ++ post) := by
  intro pre
  induction pre with
  | nil =>
    intro b post
    have happ : applyEntry cat b e = b := by
      unfold applyEntry entryVal
      rw [he]
    show runEntries cat b (e :: post) = runEntries cat b post
    simp only [runEntries, processEntry_eq_ok cat b e none he, happ]
  | cons f pre' ih =>
    intro b post
    show runEntries cat b (f :: (pre' ++ e :: post)) = runEntries cat b (f :: (pre' ++ post))
    unfold runEntries
    cases ha : entryStep cat f with
    | error er₂ => rw [processEntry_eq_error cat b f er₂ ha]
    | ok a =>
      rw [processEntry_eq_ok cat b f a ha]
      exact ih (applyEntry cat b f) post

/-- Inserting a pair adds its count to that card's total and to no
other. -/
theorem countList_addCount :
    ∀ (l : List (Card × Nat)) (c : Card) (n : Nat) (c' : Card),
      countList (addCount l c n) c' = countList l c' + (if c = c' then n else 0) := by
  intro l
  induction l with
  | nil =>
    intro c n c'
    simp [countList, addCount]
  | cons p rest ih =>
    intro c n c'
    obtain ⟨a, m⟩ := p
    by_cases hac : a = c
    · by_cases hc' : c = c'
      · simp only [addCount, if_pos hac, countList, List.map_cons, List.sum_cons,
          if_pos hc', if_pos (hac.trans hc')]
        omega
      · simp only [addCount, if_pos hac, countList, List.map_cons, List.sum_cons,
          if_neg hc', if_neg (fun h => hc' (hac.symm.trans h))]
        omega
    · have hrec := ih c n c'
      simp only [addCount, if_neg hac, countList, List.map_cons, List.sum_cons] at hrec ⊢
      omega

/-- Effect of one decided entry on a card's accumulated count. -/
theorem count_applyEntry (cat : Catalog) (b : DeckBuilder) (e : String × Nat) (c : Card) :
    (applyEntry cat b e).count c = b.count c + entryContrib cat c e := by
  unfold applyEntry entryContrib
  cases entryVal cat e with
  | none => rfl
  | some p =>
    obtain ⟨c', n⟩ := p
    show countList (addCount b.cards c' n) c = countList b.cards c + _
    rw [countList_addCount]

/-- The accumulated count of a card after folding the decided effects is
the sum of the entries' contributions. -/
theorem count_foldl (cat : Catalog) :
    ∀ (l : List (String × Nat)) (b : DeckBuilder) (c : Card),
      ((l.foldl (applyEntry cat) b)).count c
        = b.count c + (l.map (entryContrib cat c)).sum := by
  intro l
  induction l with
  | nil => intro b c; simp
  | cons e rest ih =>
    intro b c
    rw [List.foldl_cons, ih, count_applyEntry, List.map_cons, List.sum_cons]
    omega

/-- When the cards payload is present, an abnormal result of `collection`
is exactly an abnormal result of the loop. -/
theorem collection_error_run (cat : Catalog) (i : Nat) (inv : Option GetPlayerInventory)
    (l : List (String × Nat)) (er : RtError)
    (h : Log.collection cat ⟨some ⟨i, l⟩, inv⟩ = .error er) :
    runEntries cat DeckBuilder.new l = .error er := by
  cases hr : runEntries cat DeckBuilder.new l with
  | error er₂ =>
    have hv : Log.collection cat ⟨some ⟨i, l⟩, inv⟩ = .error er₂ := by
      simp only [Log.collection, hr]
    rw [hv] at h
    rw [Except.error.inj h]
  | ok b =>
    have hv : Log.collection cat ⟨some ⟨i, l⟩, inv⟩ = .ok b.build := by
      simp only [Log.collection, hr]
    rw [hv] at h
    exact Except.noConfusion h

/-- When every entry's decision succeeds, `collection` builds the folded
deck. -/
theorem collection_ok_of (cat : Catalog) (i : Nat) (inv : Option GetPlayerInventory)
    (l : List (String × Nat)) (h : entriesOk cat l) :
    Log.collection cat ⟨some ⟨i, l⟩, inv⟩
      = .ok ((l.foldl (applyEntry cat) DeckBuilder.new)).build := by
  simp only [Log.collection, runEntries_ok cat l DeckBuilder.new h]

/-- A successful `collection` run means every entry's decision
succeeded. -/
theorem collection_ok_entries (cat : Catalog) (i : Nat) (inv : Option GetPlayerInventory)
    (l : List (String × Nat)) (d : Deck)
    (h : Log.collection cat ⟨some ⟨i, l⟩, inv⟩ = .ok d) : entriesOk cat l := by
  intro e he
  cases ha : entryStep cat e with
  | ok a => exact ⟨a, rfl⟩
  | error er =>
    obtain ⟨er', hr⟩ := runEntries_error_of_mem cat l DeckBuilder.new e er he ha
    have hv : Log.collection cat ⟨some ⟨i, l⟩, inv⟩ = .error er' := by
      simp only [Log.collection, hr]
    rw [hv] at h
    exact Except.noConfusion h

/-- A violating entry makes the decision of that entry panic. -/
theorem entryViolation_step (cat : Catalog) (e : String × Nat)
    (h : entryViolation cat e) : ∃ msg, entryStep cat e = .error (.rtPanic msg) := by
  obtain ⟨a, id, nm, hp, hm, hid, hcase⟩ := h
  rcases hcase with hnone | ⟨c, hc, hneq, hnl⟩ | ⟨c, hsel, hz, ha⟩
  · exact ⟨"id lookup must work",
      entryStep_eq_selError cat e a id nm _ hp hm hid (selectCard_eq_idMiss cat id nm hnone)⟩
  · rcases hnl with hnl | hnl
    · exact ⟨"name lookup must work",
        entryStep_eq_selError cat e a id nm _ hp hm hid
          (selectCard_eq_nameMiss cat id nm c hc hneq hnl)⟩
    · exact ⟨"nothing",
        entryStep_eq_selError cat e a id nm _ hp hm hid
          (selectCard_eq_nameEmpty cat id nm c hc hneq hnl)⟩
  · exact ⟨"unreachable code",
      entryStep_eq_sanity cat e a id nm c hp hm hid hsel ⟨hz, ha⟩⟩

/-- Claim C1 as amended: when a catalog-integrity violation occurs on some
payload entry (primary id lookup miss after a successful arena-id mapping,
name-fallback lookup yielding no entries, or a selected card bound to a
different nonzero arena identifier), `collection` aborts the
reconciliation by panicking — the abnormal outcome is an `expect` or
`unreachable` panic, and no partial collection is returned. -/
theorem c1_abort_is_panic (cat : Catalog) (i : Nat) (inv : Option GetPlayerInventory)
    (l : List (String × Nat)) (h : ∃ e ∈ l, entryViolation cat e) :
    ∃ msg, Log.collection cat ⟨some ⟨i, l⟩, inv⟩ = .error (.rtPanic msg) := by
  obtain ⟨e, hel, hv⟩ := h
  obtain ⟨msg, hstep⟩ := entryViolation_step cat e hv
  obtain ⟨er', hr⟩ := runEntries_error_of_mem cat l DeckBuilder.new e _ hel hstep
  obtain ⟨e', he', hstep'⟩ := runEntries_error_mem cat l DeckBuilder.new er' hr
  obtain ⟨msg', hmsg⟩ := entryStep_error_panic cat e' er' hstep'
  exact ⟨msg', by simp only [Log.collection, hr, hmsg]⟩

/-- Counterexample to C1 as stated: at a concrete snapshot and catalog
whose id lookup misses after a successful arena-id mapping, `collection`
ends in the `expect` panic; it does not return the structured error value
of its signature (`LogError`, whose only inhabitant is `BadPayload`). -/
theorem c1_counterexample :
    Log.collection brokenCatalog ⟨some ⟨0, [("5", 1)]⟩, none⟩
      = .error (.rtPanic "id lookup must work") ∧
    Log.collection brokenCatalog ⟨some ⟨0, [("5", 1)]⟩, none⟩
      ≠ .error (.logError LogError.BadPayload) :=
  ⟨rfl, fun hc => RtError.noConfusion (Except.error.inj hc)⟩

/-- Witness for the amended C1 at the concrete violating snapshot. -/
theorem c1_witness :
    (∃ e ∈ [("5", (1 : Nat))], entryViolation brokenCatalog e) ∧
    ∃ msg, Log.collection brokenCatalog ⟨some ⟨0, [("5", 1)]⟩, none⟩
      = .error (.rtPanic msg) :=
  ⟨⟨("5", 1), by simp, ⟨5, "cX", "Gamma", by decide, rfl, by decide, Or.inl rfl⟩⟩,
   c1_abort_is_panic brokenCatalog 0 none [("5", 1)]
     ⟨("5", 1), by simp, ⟨5, "cX", "Gamma", by decide, rfl, by decide, Or.inl rfl⟩⟩⟩

/-- Claim C3: when the primary id lookup hits a card whose display name
equals the expected name, that card is the one selected — independently of
the name index, which is never consulted — and it is the card accumulated
with the entry's count; when the names differ, the first entry of the name
lookup, in the name index's own order, is selected and accumulated
instead. -/
theorem c3_lookup_paths (cat : Catalog) (id nm : String) (c : Card)
    (hc : cat.idLookup id = some c) :
    (c.name = nm → selectCard cat id nm = .ok c ∧
      ∀ nl, selectCard { cat with nameLookup := nl } id nm = .ok c) ∧
    (¬c.name = nm → ∀ c₀ cs, cat.nameLookup nm = some (c₀ :: cs) →
      selectCard cat id nm = .ok c₀) ∧
    (∀ k a n, parseU64 k = some a → cat.arena2scryfall a = some (id, nm) → ¬id = "" →
      c.name = nm → ¬(c.arena_id ≠ 0 ∧ c.arena_id ≠ a) →
      ∀ b, processEntry cat b (k, n) = .ok (b.insert_count c n)) ∧
    (∀ k a n c₀ cs, parseU64 k = some a → cat.arena2scryfall a = some (id, nm) →
      ¬id = "" → ¬c.name = nm → cat.nameLookup nm = some (c₀ :: cs) →
      ¬(c₀.arena_id ≠ 0 ∧ c₀.arena_id ≠ a) →
      ∀ b, processEntry cat b (k, n) = .ok (b.insert_count c₀ n)) := by
  refine ⟨?_, ?_, ?_, ?_⟩
  · intro hnm
    exact ⟨selectCard_eq_nameMatch cat id nm c hc hnm,
      fun nl => selectCard_eq_nameMatch { cat with nameLookup := nl } id nm c hc hnm⟩
  · intro hnm c₀ cs hnl
    exact selectCard_eq_nameFirst cat id nm c c₀ cs hc hnm hnl
  · intro k a n hq hm hid hnm hsan b
    have hstep : entryStep cat (k, n) = .ok (some (c, n)) :=
      entryStep_eq_insert cat (k, n) a id nm c hq hm hid
        (selectCard_eq_nameMatch cat id nm c hc hnm) hsan
    simp only [processEntry, hstep]
  · intro k a n c₀ cs hq hm hid hnm hnl hsan b
    have hstep : entryStep cat (k, n) = .ok (some (c₀, n)) :=
      entryStep_eq_insert cat (k, n) a id nm c₀ hq hm hid
        (selectCard_eq_nameFirst cat id nm c c₀ cs hc hnm hnl) hsan
    simp only [processEntry, hstep]

/-- Witness for C3 at the sample catalog, where arena id 1 maps to
`cardAlpha` under its expected name. -/
theorem c3_witness :
    sampleCatalog.idLookup "c1" = some cardAlpha ∧
    ((cardAlpha.name = "Alpha" → selectCard sampleCatalog "c1" "Alpha" = .ok cardAlpha ∧
      ∀ nl, selectCard { sampleCatalog with nameLookup := nl } "c1" "Alpha" = .ok cardAlpha) ∧
    (¬cardAlpha.name = "Alpha" → ∀ c₀ cs, sampleCatalog.nameLookup "Alpha" = some (c₀ :: cs) →
      selectCard sampleCatalog "c1" "Alpha" = .ok c₀) ∧
    (∀ k a n, parseU64 k = some a → sampleCatalog.arena2scryfall a = some ("c1", "Alpha") →
      ¬(("c1" : String)) = "" → cardAlpha.name = "Alpha" →
      ¬(cardAlpha.arena_id ≠ 0 ∧ cardAlpha.arena_id ≠ a) →
      ∀ b, processEntry sampleCatalog b (k, n) = .ok (b.insert_count cardAlpha n)) ∧
    (∀ k a n c₀ cs, parseU64 k = some a → sampleCatalog.arena2scryfall a = some ("c1", "Alpha") →
      ¬(("c1" : String)) = "" → ¬cardAlpha.name = "Alpha" →
      sampleCatalog.nameLookup "Alpha" = some (c₀ :: cs) →
      ¬(c₀.arena_id ≠ 0 ∧ c₀.arena_id ≠ a) →
      ∀ b, processEntry sampleCatalog b (k, n) = .ok (b.insert_count c₀ n))) :=
  ⟨rfl, c3_lookup_paths sampleCatalog "c1" "Alpha" cardAlpha rfl⟩

/-- Claim C5: on a snapshot on which `collection` succeeds, permuting the
payload's arena-id-to-count pairs yields a collection with the same
accumulated count for every canonical card (counts for the same card
merged by summation). -/
theorem c5_order_independent (cat : Catalog) (i : Nat) (inv : Option GetPlayerInventory)
    (l₁ l₂ : List (String × Nat)) (hperm : l₁.Perm l₂) (d₁ : Deck)
    (h₁ : Log.collection cat ⟨some ⟨i, l₁⟩, inv⟩ = .ok d₁) :
    ∃ d₂, Log.collection cat ⟨some ⟨i, l₂⟩, inv⟩ = .ok d₂ ∧
      ∀ c, d₁.count c = d₂.count c := by
  have hok₁ : entriesOk cat l₁ := collection_ok_entries cat i inv l₁ d₁ h₁
  have hok₂ : entriesOk cat l₂ := fun e he => hok₁ e (hperm.mem_iff.mpr he)
  have hv₁ := collection_ok_of cat i inv l₁ hok₁
  have hv₂ := collection_ok_of cat i inv l₂ hok₂
  refine ⟨_, hv₂, ?_⟩
  intro c
  have hd₁ : d₁ = ((l₁.foldl (applyEntry cat) DeckBuilder.new)).build := by
    rw [h₁] at hv₁
    exact Except.ok.inj hv₁
  rw [hd₁]
  show ((l₁.foldl (applyEntry cat) DeckBuilder.new)).count c
      = ((l₂.foldl (applyEntry cat) DeckBuilder.new)).count c
  rw [count_foldl, count_foldl, (hperm.map (entryContrib cat c)).sum_eq]

/-- Witness for C5 at a concrete two-entry payload and its swap. -/
theorem c5_witness :
    List.Perm [("1", (2 : Nat)), ("2", 3)] [("2", 3), ("1", 2)] ∧
    Log.collection sampleCatalog ⟨some ⟨7, [("1", 2), ("2", 3)]⟩, none⟩
      = .ok (Deck.mk [(cardAlpha, 2), (cardBeta, 3)]) ∧
    ∃ d₂, Log.collection sampleCatalog ⟨some ⟨7, [("2", 3), ("1", 2)]⟩, none⟩ = .ok d₂ ∧
      ∀ c, (Deck.mk [(cardAlpha, 2), (cardBeta, 3)]).count c = d₂.count c :=
  ⟨List.Perm.swap ("2", 3) ("1", 2) [], rfl,
   c5_order_independent sampleCatalog 7 none [("1", 2), ("2", 3)] [("2", 3), ("1", 2)]
     (List.Perm.swap ("2", 3) ("1", 2) [])
     (Deck.mk [(cardAlpha, 2), (cardBeta, 3)]) rfl⟩

/-- Claim C6: an entry whose arena identifier is absent from the arena-id
mapping, or maps to an empty catalog identifier, is skipped: removing it
from the payload leaves the result of `collection` unchanged, so it
contributes nothing, causes no failure, and the remaining entries are
still reconciled. -/
theorem c6_skip_unmapped (cat : Catalog) (k : String) (n a : Nat)
    (hk : parseU64 k = some a)
    (hskip : cat.arena2scryfall a = none ∨ ∃ nm, cat.arena2scryfall a = some ("", nm)) :
    ∀ (i : Nat) (inv : Option GetPlayerInventory) (pre post : List (String × Nat)),
      Log.collection cat ⟨some ⟨i, pre ++ (k, n) :: post⟩, inv⟩ =
        Log.collection cat ⟨some ⟨i, pre ++ post⟩, inv⟩ := by
  intro i inv pre post
  have hstep : entryStep cat (k, n) = .ok none := by
    rcases hskip with hm | ⟨nm, hm⟩
    · exact entryStep_eq_unmapped cat (k, n) a hk hm
    · exact entryStep_eq_emptyId cat (k, n) a nm hk hm
  simp only [Log.collection, runEntries_skip cat (k, n) hstep pre DeckBuilder.new post]

/-- Witness for C6: arena id 999 is unknown to the sample catalog and its
entry drops out of a payload that also holds two valid entries. -/
theorem c6_witness :
    parseU64 "999" = some 999 ∧
    (sampleCatalog.arena2scryfall 999 = none ∨
      ∃ nm, sampleCatalog.arena2scryfall 999 = some ("", nm)) ∧
    Log.collection sampleCatalog ⟨some ⟨0, [("1", 2)] ++ ("999", 5) :: [("2", 3)]⟩, none⟩ =
      Log.collection sampleCatalog ⟨some ⟨0, [("1", 2)] ++ [("2", 3)]⟩, none⟩ :=
  ⟨by decide, Or.inl rfl,
   c6_skip_unmapped sampleCatalog "999" 5 999 (by decide) (Or.inl rfl) 0 none
     [("1", 2)] [("2", 3)]⟩

/-- Claim C9: the cards-payload keys go through an unguarded `u64` parse —
when every key parses as a decimal `u64`, the parse-failure panic is
unreachable and `collection` proceeds; and on a concrete snapshot holding
the non-numeric key `"x"`, `collection` hits exactly that panic rather
than skipping the entry or returning an error value. -/
theorem c9_unguarded_parse :
    (∀ (cat : Catalog) (i : Nat) (inv : Option GetPlayerInventory)
        (l : List (String × Nat)),
      (∀ e ∈ l, (parseU64 e.1).isSome = true) →
      Log.collection cat ⟨some ⟨i, l⟩, inv⟩ ≠ .error (.rtPanic "parse to u64 works")) ∧
    Log.collection sampleCatalog ⟨some ⟨0, [("x", 1)]⟩, none⟩
      = .error (.rtPanic "parse to u64 works") := by
  constructor
  · intro cat i inv l hall hcontra
    have hr := collection_error_run cat i inv l _ hcontra
    obtain ⟨e, hel, hstep⟩ := runEntries_error_mem cat l DeckBuilder.new _ hr
    exact entryStep_error_parse cat e _ hstep (hall e hel) rfl
  · rfl

/-- Witness for C9's universal part at a concrete all-numeric payload. -/
theorem c9_witness :
    (∀ e ∈ [("12", (4 : Nat))], (parseU64 e.1).isSome = true) ∧
    Log.collection sampleCatalog ⟨some ⟨0, [("12", 4)]⟩, none⟩
      ≠ .error (.rtPanic "parse to u64 works") :=
  ⟨by decide,
   c9_unguarded_parse.1 sampleCatalog 0 none [("12", 4)] (by decide)⟩

end Landlord
